import Mathlib

/-!
Shallow embedding of the `gz_lrauv` simulator plugins
(`WorldCommPlugin`, `TethysCommPlugin`, `FinLiftDragPlugin`, and the
spec-described `CommsPacket`) together with proofs about them.

Modelling conventions:
* C++ `double` values are modelled as exact rationals (`ℚ`); the arithmetic
  the claims are about is sign/copy/negate arithmetic, for which the exact
  model is faithful.
* Publishing a message and requesting a service are modelled by returning
  the list of issued messages/requests; the return value of the transport
  `Request` call (which the code branches on) is an explicit boolean input.
* `std::map<double, double>` is modelled as an association list whose keys
  are pairwise distinct (the `std::map` invariant).
-/

namespace GzLrauv

/-- Exact rational value of the C `M_PI` double constant
(3.14159265358979311...). -/
def M_PI : ℚ := 884279719003555 / 281474976710656

/-- Three-component vector of doubles (`gz::math::Vector3d`). -/
structure Vec3 where
  x : ℚ
  y : ℚ
  z : ℚ
  deriving DecidableEq, Repr

/-! ## WorldCommPlugin (src/lrauv_gazebo_plugins/src/WorldCommPlugin.cc) -/

/-- The `lrauv_gazebo_plugins::msgs::LRAUVInit` spawn message.  The optional
`id` submessage models the protobuf `has_id_()` presence bit; its payload is
the vehicle name string (`_msg.id_().data()`). -/
structure LRAUVInit where
  id : Option String
  acommsAddress : Nat
  initLat : ℚ
  initLon : ℚ
  initZ : ℚ
  initRoll : ℚ
  initPitch : ℚ
  initHeading : ℚ
  deriving DecidableEq, Repr

/-- Surface model enumeration of `gz::msgs::SphericalCoordinates`. -/
inductive SurfaceModel where
  | EARTH_WGS84
  deriving DecidableEq, Repr

/-- The `gz::msgs::SphericalCoordinates` request payload. -/
structure SphericalCoordinatesMsg where
  surfaceModel : SurfaceModel
  latitudeDeg : ℚ
  longitudeDeg : ℚ
  elevation : ℚ
  headingDeg : ℚ
  deriving DecidableEq, Repr

/-- Payload of the `/world/.../create` `gz::msgs::EntityFactory` request.
The pose orientation that the source computes is
`Quaterniond(0, 0, -GZ_PI/2) * EulerToQuaternion(pitch, roll, -heading)`;
the quaternion conversion is transcendental, so the orientation is kept as
the NED Euler angles (roll, pitch, heading) the source feeds into it. -/
structure EntityFactoryMsg where
  sdf : String
  sphericalCoordinates : SphericalCoordinatesMsg
  poseOrientationNedRPH : Vec3
  deriving DecidableEq, Repr

/-- A service request issued by `WorldCommPlugin` through `node.Request`. -/
inductive Request where
  | setSphericalCoords (req : SphericalCoordinatesMsg)
  | create (req : EntityFactoryMsg)
  | setPerformer (data : String)
  deriving DecidableEq, Repr

/-- Mutable state of `WorldCommPlugin` that `SpawnCallback` touches. -/
structure PluginState where
  hasWorldLatLon : Bool
  deriving DecidableEq, Repr

/-- Return values of the three `node.Request` calls a single
`SpawnCallback` run can make (the transport is external, so they are
inputs to the model). -/
structure SpawnOracle where
  scOk : Bool
  createOk : Bool
  perfOk : Bool
  deriving DecidableEq, Repr

/-- `WorldCommPlugin::TethysSdfString`: builds the SDF snippet for the
spawned vehicle from the vehicle id and acoustic-comms address. -/
def TethysSdfString (msg : LRAUVInit) : String :=
  let i := msg.id.getD ""
  let a := toString msg.acommsAddress
  "\n  <sdf version=\"1.9\">\n  <model name=\"" ++ i ++
  "\">\n    <include merge=\"true\">\n\n      <!--\n" ++
  "          Without any extra pose offset, the model is facing West.\n" ++
  "          For the controller, zero orientation means the robot is facing North.\n" ++
  "          So we need to rotate it.\n" ++
  "          Note that this pose is expressed in ENU.\n" ++
  "      <pose degrees=\"true\">0 0 0  0 0 -90</pose>\n      -->\n\n" ++
  "      <!-- rename included model to avoid frame collisions -->\n" ++
  "      <name>tethys_equipped</name>\n\n      <uri>tethys_equipped</uri>\n\n" ++
  "      <experimental:params>\n\n" ++
  "        <sensor element_id=\"base_link::salinity_sensor\" action=\"modify\">\n" ++
  "          <topic>/model/" ++ i ++ "/salinity</topic>\n        </sensor>\n\n" ++
  "        <sensor element_id=\"base_link::temperature_sensor\" action=\"modify\">\n" ++
  "          <topic>/model/" ++ i ++ "/temperature</topic>\n        </sensor>\n\n" ++
  "        <sensor element_id=\"base_link::chlorophyll_sensor\" action=\"modify\">\n" ++
  "          <topic>/model/" ++ i ++ "/chlorophyll</topic>\n        </sensor>\n\n" ++
  "        <sensor element_id=\"base_link::current_sensor\" action=\"modify\">\n" ++
  "          <topic>/model/" ++ i ++ "/current</topic>\n        </sensor>\n\n" ++
  "        <sensor element_id=\"base_link::sparton_ahrs_m2_imu\" action=\"modify\">\n" ++
  "          <topic>/" ++ i ++ "/ahrs/imu</topic>\n        </sensor>\n\n" ++
  "        <sensor element_id=\"base_link::sparton_ahrs_m2_magnetometer\" action=\"modify\">\n" ++
  "          <topic>/" ++ i ++ "/ahrs/magnetometer</topic>\n        </sensor>\n\n" ++
  "        <sensor element_id=\"base_link::teledyne_pathfinder_dvl\" action=\"modify\">\n" ++
  "          <topic>/" ++ i ++ "/dvl/velocity</topic>\n        </sensor>\n\n" ++
  "        <plugin element_id=\"gz::sim::systems::Thruster\" action=\"modify\">\n" ++
  "          <namespace>" ++ i ++ "</namespace>\n        </plugin>\n\n" ++
  "        <plugin element_id=\"tethys::TethysCommPlugin\" action=\"modify\">\n" ++
  "          <namespace>" ++ i ++ "</namespace>\n" ++
  "          <command_topic>" ++ i ++ "/command_topic</command_topic>\n" ++
  "          <state_topic>" ++ i ++ "/state_topic</state_topic>\n        </plugin>\n\n" ++
  "        <plugin element_id=\"gz::sim::systems::BuoyancyEngine\" action=\"modify\">\n" ++
  "          <namespace>" ++ i ++ "</namespace>\n        </plugin>\n\n" ++
  "        <plugin element_id=\"gz::sim::systems::DetachableJoint\" action=\"modify\">\n" ++
  "          <topic>/model/" ++ i ++ "/drop_weight</topic>\n        </plugin>\n\n" ++
  "        <plugin element_id=\"gz::sim::systems::CommsEndpoint\" action=\"modify\">\n" ++
  "          <address>" ++ a ++ "</address>\n" ++
  "          <topic>" ++ a ++ "/rx</topic>\n        </plugin>\n\n" ++
  "        <plugin element_id=\"tethys::RangeBearingPlugin\" action=\"modify\">\n" ++
  "          <address>" ++ a ++ "</address>\n" ++
  "          <namespace>" ++ i ++ "</namespace>\n        </plugin>\n\n" ++
  "      </experimental:params>\n    </include>\n  </model>\n  </sdf>"

/-- `WorldCommPlugin::SpawnCallback`: one delivery of a spawn message.
Returns the updated plugin state and the list of service requests the
callback successfully issued (a `node.Request` call whose oracle bit is
`false` reported failure, so nothing was sent for it). -/
def SpawnCallback (st : PluginState) (msg : LRAUVInit) (ora : SpawnOracle) :
    PluginState × List Request :=
  match msg.id with
  | none => (st, [])
  | some i =>
    let lat := msg.initLat
    let lon := msg.initLon
    let ele := -msg.initZ
    -- Center the world around the first vehicle spawned
    let originStep : PluginState × List Request :=
      if st.hasWorldLatLon then (st, [])
      else
        let scReq : SphericalCoordinatesMsg :=
          { surfaceModel := .EARTH_WGS84
            latitudeDeg := lat
            longitudeDeg := lon
            elevation := ele
            -- Use zero heading so world is always aligned with lat / lon
            headingDeg := 0 }
        if ora.scOk then
          ({ st with hasWorldLatLon := true }, [Request.setSphericalCoords scReq])
        else (st, [])
    let st1 := originStep.1
    let reqs1 := originStep.2
    -- Create vehicle
    let factoryReq : EntityFactoryMsg :=
      { sdf := TethysSdfString msg
        sphericalCoordinates :=
          { surfaceModel := .EARTH_WGS84
            latitudeDeg := lat
            longitudeDeg := lon
            elevation := ele
            headingDeg := 0 }
        poseOrientationNedRPH := ⟨msg.initRoll, msg.initPitch, msg.initHeading⟩ }
    if ora.createOk then
      -- Make spawned model a performer
      if ora.perfOk then
        (st1, reqs1 ++ [Request.create factoryReq, Request.setPerformer i])
      else
        (st1, reqs1 ++ [Request.create factoryReq])
    else
      (st1, reqs1)

/-- Delivery of a whole sequence of spawn messages, folding
`SpawnCallback` and collecting every issued request in order. -/
def runSpawns (st : PluginState) :
    List (LRAUVInit × SpawnOracle) → PluginState × List Request
  | [] => (st, [])
  | (m, o) :: rest =>
    ((runSpawns (SpawnCallback st m o).1 rest).1,
     (SpawnCallback st m o).2 ++ (runSpawns (SpawnCallback st m o).1 rest).2)

/-- Whether a request is a world-origin (`set_spherical_coordinates`)
request. -/
def isOriginReq : Request → Bool
  | .setSphericalCoords _ => true
  | _ => false

/-- Number of world-origin requests in a request list. -/
def originCount (reqs : List Request) : Nat :=
  (reqs.filter isOriginReq).length

/-! ## TethysCommPlugin (second document of
src/lrauv_ignition_plugins/src/FinLiftDragPlugin.cc) -/

/-- The `lrauv_ignition_plugins::msgs::LRAUVCommand` message fields
`CommandCallback` reads. -/
structure LRAUVCommand where
  propOmegaAction : ℚ
  rudderAngleAction : ℚ
  elevatorAngleAction : ℚ
  massPositionAction : ℚ
  buoyancyAction : ℚ
  density : ℚ
  dt : ℚ
  time : ℚ
  deriving DecidableEq, Repr

/-- One `ignition::msgs::Double` publication of `CommandCallback`, tagged
with the topic it goes out on. -/
inductive CmdPub where
  | rudder (data : ℚ)
  | elevator (data : ℚ)
  | thruster (data : ℚ)
  deriving DecidableEq, Repr

/-- `TethysCommPlugin::CommandCallback`: republishes one received command
as the rudder, elevator and thruster setpoint messages, in the order the
source publishes them. -/
def CommandCallback (msg : LRAUVCommand) : List CmdPub :=
  -- Rudder
  let rudderAngMsg := msg.rudderAngleAction
  -- Elevator
  let elevatorAngMsg := msg.elevatorAngleAction
  -- Thruster: conversion from rpm -> force b/c thruster plugin takes force
  let angVel := msg.propOmegaAction / (60 * 2 * M_PI)
  let force0 := -7.879 * 1000 * 0.0016 * angVel * angVel
  let force := if angVel < 0 then force0 * (-1) else force0
  [CmdPub.rudder rudderAngMsg, CmdPub.elevator elevatorAngMsg,
   CmdPub.thruster force]

/-- A world pose: position plus orientation.  The orientation is carried
as its Euler angles, which is exactly what `Rot().Euler()` extracts. -/
structure Pose where
  pos : Vec3
  rotEuler : Vec3
  deriving DecidableEq, Repr

/-- The slice of the entity-component store `TethysCommPlugin::PostUpdate`
reads: the model link's world pose, the base link's world linear velocity
and the propeller link's world angular velocity. -/
structure TethysEcm where
  modelWorldPose : Pose
  baseWorldLinVel : Vec3
  propWorldAngVel : Vec3
  deriving DecidableEq, Repr

/-- The `lrauv_ignition_plugins::msgs::LRAUVState` message fields
`PostUpdate` fills in. -/
structure LRAUVState where
  stampSec : Int
  stampNsec : Int
  rph : Vec3
  depth : ℚ
  speed : ℚ
  latitudeDeg : ℚ
  longitudeDeg : ℚ
  propOmega : ℚ
  deriving DecidableEq, Repr

/-- Truncating cast of a 64-bit count to a C `int`, as in
`int(duration_cast<nanoseconds>(simTime).count())`. -/
def toCInt (n : Int) : Int :=
  (n + 2 ^ 31) % 2 ^ 32 - 2 ^ 31

/-- `TethysCommPlugin::PostUpdate`: builds and publishes one `LRAUVState`
message from the entity-component store.  `simTimeNanos` is the simulation
time in nanoseconds (nonnegative); `vecLength` stands for the double
`Vector3d::Length()` (a square root, kept abstract); `sphericalFromLocal`
stands for `sphericalCoords.SphericalFromLocalPosition`.  Returns the list
of messages published on the state topic. -/
def PostUpdate (vecLength : Vec3 → ℚ) (sphericalFromLocal : Vec3 → Vec3)
    (simTimeNanos : Nat) (ecm : TethysEcm) : List LRAUVState :=
  let model_pose := ecm.modelWorldPose
  let sec : Int := (simTimeNanos : Int) / 1000000000
  let nsec : Int := toCInt (simTimeNanos : Int) - sec * 1000000000
  let rph := model_pose.rotEuler
  let latlon := sphericalFromLocal model_pose.pos
  let prop_omega := vecLength ecm.propWorldAngVel
  [{ stampSec := sec
     stampNsec := nsec
     rph := rph
     depth := -model_pose.pos.z
     speed := vecLength ecm.baseWorldLinVel
     latitudeDeg := latlon.x
     longitudeDeg := latlon.y
     propOmega := prop_omega }]

/-! ## FinLiftDragPlugin (first document of
src/lrauv_ignition_plugins/src/FinLiftDragPlugin.cc) -/

/-- `std::map<double, double>::count`: number of entries with the given
key (0 or 1 under the map invariant). -/
def mapCount (m : List (ℚ × ℚ)) (k : ℚ) : Nat :=
  (m.filter fun p => p.1 == k).length

/-- `std::map<double, double>::find(k)->second`: the value stored at the
first entry with the given key. -/
def mapFind (m : List (ℚ × ℚ)) (k : ℚ) : Option ℚ :=
  m.lookup k

/-- `FinLiftDragPrivateData::interpolate`.  On an exact table hit the
stored coefficient is returned.  On every other query the source computes
the wrap-around right neighbour and `left = std::prev(right)` and then
reaches the closing brace of the non-void function without any `return`
statement: no value is produced, modelled as `none`. -/
def interpolate (spline : List (ℚ × ℚ)) (angle : ℚ) : Option ℚ :=
  if mapCount spline angle > 0 then
    mapFind spline angle
  else
    none

/-- `FinLiftDragPlugin::PreUpdate`: the body is empty; the
entity-component store is untouched and nothing is published.  The store
is represented by the same `TethysEcm` slice used elsewhere; the second
component is the (empty) list of publications. -/
def FinPreUpdate (_simTimeNanos : Nat) (ecm : TethysEcm) :
    TethysEcm × List LRAUVState :=
  (ecm, [])

/-! ## CommsPacket

Modelled from the spec: the `CommsPacket` / `CommsClient` sources are not
under `src/` — only the unit test `CommsBasicUnitTest.CommsPacketConversions`
references them.  Per the spec, a packet couples an acoustic message
(addressing and payload) with the sending vehicle's position and a
timestamp; `ToInternalMsg` serializes it to the wire form, `make` decodes
either an external message plus position/time or a wire message, and
`ToExternalMsg` recovers the external message. -/

/-- Message type enumeration of
`lrauv_ignition_plugins::msgs::LRAUVAcousticMessage`. -/
inductive AcousticMsgType where
  | RangeRequest
  | RangeResponse
  | Other
  deriving DecidableEq, Repr

/-- Modelled from the spec: the external
`LRAUVAcousticMessage` with `to`, `from`, `type` and `data` fields. -/
structure AcousticMsg where
  «to» : Nat
  «from» : Nat
  type : AcousticMsgType
  data : String
  deriving DecidableEq, Repr

/-- Modelled from the spec: the internal (wire) form of a packet — the
fixed-size serialization carrying addressing, payload, position and
timestamp. -/
structure InternalCommsMsg where
  «to» : Nat
  «from» : Nat
  type : AcousticMsgType
  data : String
  position : Vec3
  timeNanos : Int
  deriving DecidableEq, Repr

/-- Modelled from the spec: the internal representation of an acoustic
packet. -/
structure CommsPacket where
  «to» : Nat
  «from» : Nat
  type : AcousticMsgType
  data : String
  position : Vec3
  timeNanos : Int
  deriving DecidableEq, Repr

/-- Modelled from the spec: `CommsPacket::make` from an external message,
the sender position and a timestamp. -/
def CommsPacket.make (msg : AcousticMsg) (position : Vec3)
    (timeNanos : Int) : CommsPacket :=
  { «to» := msg.«to»
    «from» := msg.«from»
    type := msg.type
    data := msg.data
    position := position
    timeNanos := timeNanos }

/-- Modelled from the spec: `CommsPacket::make` from a decoded wire
message (the C++ overload on the internal message type). -/
def CommsPacket.makeFromInternal (msg : InternalCommsMsg) : CommsPacket :=
  { «to» := msg.«to»
    «from» := msg.«from»
    type := msg.type
    data := msg.data
    position := msg.position
    timeNanos := msg.timeNanos }

/-- Modelled from the spec: `CommsPacket::ToInternalMsg`, the wire-form
serialization of a packet. -/
def CommsPacket.ToInternalMsg (p : CommsPacket) : InternalCommsMsg :=
  { «to» := p.«to»
    «from» := p.«from»
    type := p.type
    data := p.data
    position := p.position
    timeNanos := p.timeNanos }

/-- Modelled from the spec: `CommsPacket::ToExternalMsg`, recovering the
external acoustic message carried by a packet. -/
def CommsPacket.ToExternalMsg (p : CommsPacket) : AcousticMsg :=
  { «to» := p.«to»
    «from» := p.«from»
    type := p.type
    data := p.data }

/-! ## Helper lemmas about `SpawnCallback` and `runSpawns` -/

theorem originCount_append (a b : List Request) :
    originCount (a ++ b) = originCount a + originCount b := by
  simp [originCount, List.filter_append]

theorem SpawnCallback_originCount_le_one (st : PluginState) (m : LRAUVInit)
    (o : SpawnOracle) : originCount (SpawnCallback st m o).2 ≤ 1 := by
  obtain ⟨b⟩ := st
  obtain ⟨mid, a1, a2, a3, a4, a5, a6, a7⟩ := m
  obtain ⟨s, c, p⟩ := o
  cases mid <;> cases b <;> cases s <;> cases c <;> cases p <;>
    simp [SpawnCallback, originCount, isOriginReq]

theorem SpawnCallback_flag_true (st : PluginState) (m : LRAUVInit)
    (o : SpawnOracle) (h : st.hasWorldLatLon = true) :
    (SpawnCallback st m o).1.hasWorldLatLon = true ∧
      originCount (SpawnCallback st m o).2 = 0 := by
  obtain ⟨b⟩ := st
  obtain ⟨mid, a1, a2, a3, a4, a5, a6, a7⟩ := m
  obtain ⟨s, c, p⟩ := o
  cases b
  · exact absurd h (by simp)
  · cases mid <;> cases s <;> cases c <;> cases p <;>
      simp [SpawnCallback, originCount, isOriginReq]

theorem SpawnCallback_flag_false_after (st : PluginState) (m : LRAUVInit)
    (o : SpawnOracle) (h : (SpawnCallback st m o).1.hasWorldLatLon = false) :
    originCount (SpawnCallback st m o).2 = 0 := by
  obtain ⟨b⟩ := st
  obtain ⟨mid, a1, a2, a3, a4, a5, a6, a7⟩ := m
  obtain ⟨s, c, p⟩ := o
  cases mid <;> cases b <;> cases s <;> cases c <;> cases p <;>
    simp_all [SpawnCallback, originCount, isOriginReq]

theorem SpawnCallback_sets_flag (st : PluginState) (m : LRAUVInit)
    (o : SpawnOracle) (hf : st.hasWorldLatLon = false) (hs : o.scOk = true)
    (hid : m.id.isSome) : (SpawnCallback st m o).1.hasWorldLatLon = true := by
  obtain ⟨b⟩ := st
  obtain ⟨mid, a1, a2, a3, a4, a5, a6, a7⟩ := m
  obtain ⟨s, c, p⟩ := o
  cases mid <;> cases b <;> cases s <;> cases c <;> cases p <;>
    simp_all [SpawnCallback]

theorem runSpawns_flag_true (msgs : List (LRAUVInit × SpawnOracle)) :
    ∀ st : PluginState, st.hasWorldLatLon = true →
      originCount (runSpawns st msgs).2 = 0 ∧
        (runSpawns st msgs).1.hasWorldLatLon = true := by
  induction msgs with
  | nil => intro st h; simpa [runSpawns, originCount] using h
  | cons mo rest ih =>
    intro st h
    obtain ⟨m, o⟩ := mo
    have h1 := SpawnCallback_flag_true st m o h
    have h2 := ih _ h1.1
    simp [runSpawns, originCount_append, h1.2, h2.1, h2.2]

theorem runSpawns_originCount_le_one (msgs : List (LRAUVInit × SpawnOracle)) :
    ∀ st : PluginState, originCount (runSpawns st msgs).2 ≤ 1 := by
  induction msgs with
  | nil => intro st; simp [runSpawns, originCount]
  | cons mo rest ih =>
    intro st
    obtain ⟨m, o⟩ := mo
    rw [show runSpawns st ((m, o) :: rest) =
        ((runSpawns (SpawnCallback st m o).1 rest).1,
         (SpawnCallback st m o).2 ++
           (runSpawns (SpawnCallback st m o).1 rest).2) from rfl]
    rw [originCount_append]
    by_cases hafter : (SpawnCallback st m o).1.hasWorldLatLon = true
    · have hrest := (runSpawns_flag_true rest _ hafter).1
      have hstep := SpawnCallback_originCount_le_one st m o
      omega
    · have hstep := SpawnCallback_flag_false_after st m o
        (Bool.not_eq_true _ ▸ hafter)
      have hrest := ih (SpawnCallback st m o).1
      omega

/-! ## Claim theorems -/

/-- C2: across every sequence of spawn messages delivered to
`WorldCommPlugin::SpawnCallback`, the world-origin
(`set_spherical_coordinates`) service is requested at most once: a request
is issued only while `hasWorldLatLon` is false, a successfully issued
request sets `hasWorldLatLon` to true, and once `hasWorldLatLon` is true no
later spawn message ever changes the world origin. -/
theorem spawn_origin_set_at_most_once (st : PluginState)
    (msgs : List (LRAUVInit × SpawnOracle)) (m : LRAUVInit) (o : SpawnOracle) :
    originCount (runSpawns st msgs).2 ≤ 1
    ∧ (0 < originCount (SpawnCallback st m o).2 → st.hasWorldLatLon = false)
    ∧ (st.hasWorldLatLon = false → o.scOk = true → m.id.isSome →
        (SpawnCallback st m o).1.hasWorldLatLon = true)
    ∧ (st.hasWorldLatLon = true →
        originCount (runSpawns st msgs).2 = 0
        ∧ (runSpawns st msgs).1.hasWorldLatLon = true) := by
  refine ⟨runSpawns_originCount_le_one msgs st, ?_, ?_, ?_⟩
  · intro hpos
    by_contra hne
    have htrue : st.hasWorldLatLon = true := by
      cases h : st.hasWorldLatLon
      · exact absurd h hne
      · rfl
    have := (SpawnCallback_flag_true st m o htrue).2
    omega
  · exact SpawnCallback_sets_flag st m o
  · intro h
    exact runSpawns_flag_true msgs st h

/-- Witness for C2 at concrete inputs: a fresh plugin (origin not yet set)
processing one well-formed spawn with all service calls succeeding, and a
plugin whose origin is already set processing the same spawn. -/
theorem spawn_origin_set_at_most_once_witness :
    (originCount (runSpawns ⟨false⟩
        [(⟨some "tethys", 1, 1, 2, 3, 0, 0, 0⟩, ⟨true, true, true⟩)]).2 ≤ 1
      ∧ (⟨false⟩ : PluginState).hasWorldLatLon = false
      ∧ (SpawnCallback ⟨false⟩ ⟨some "tethys", 1, 1, 2, 3, 0, 0, 0⟩
          ⟨true, true, true⟩).1.hasWorldLatLon = true)
    ∧ (originCount (runSpawns ⟨true⟩
        [(⟨some "tethys", 1, 1, 2, 3, 0, 0, 0⟩, ⟨true, true, true⟩)]).2 = 0
      ∧ (runSpawns ⟨true⟩
        [(⟨some "tethys", 1, 1, 2, 3, 0, 0, 0⟩, ⟨true, true, true⟩)]).1.hasWorldLatLon
          = true) := by
  have app1 := spawn_origin_set_at_most_once ⟨false⟩
    [(⟨some "tethys", 1, 1, 2, 3, 0, 0, 0⟩, ⟨true, true, true⟩)]
    ⟨some "tethys", 1, 1, 2, 3, 0, 0, 0⟩ ⟨true, true, true⟩
  have app2 := spawn_origin_set_at_most_once ⟨true⟩
    [(⟨some "tethys", 1, 1, 2, 3, 0, 0, 0⟩, ⟨true, true, true⟩)]
    ⟨some "tethys", 1, 1, 2, 3, 0, 0, 0⟩ ⟨true, true, true⟩
  exact ⟨⟨app1.1, app1.2.1 (by decide), app1.2.2.1 rfl rfl rfl⟩,
         app2.2.2.2 rfl⟩

/-- C3: when `SpawnCallback` processes a spawn message carrying an ID while
`hasWorldLatLon` is false, the spherical-coordinates request it issues has
surface model `EARTH_WGS84`, `latitude_deg = initLat_`,
`longitude_deg = initLon_`, `elevation = -initZ_` and `heading_deg = 0`.
(The request, when the transport accepts it, is the first one issued.) -/
theorem spawn_origin_request_fields (st : PluginState) (m : LRAUVInit)
    (o : SpawnOracle) (hid : m.id.isSome) (hflag : st.hasWorldLatLon = false)
    (hok : o.scOk = true) :
    (SpawnCallback st m o).2.head? = some (Request.setSphericalCoords
      { surfaceModel := .EARTH_WGS84
        latitudeDeg := m.initLat
        longitudeDeg := m.initLon
        elevation := -m.initZ
        headingDeg := 0 }) := by
  obtain ⟨b⟩ := st
  obtain ⟨mid, a1, a2, a3, a4, a5, a6, a7⟩ := m
  obtain ⟨s, c, p⟩ := o
  cases mid <;> cases b <;> cases s <;> cases c <;> cases p <;>
    simp_all [SpawnCallback]

/-- Witness for C3: a concrete spawn message with an ID against a plugin
whose world origin is not yet set. -/
theorem spawn_origin_request_fields_witness :
    (SpawnCallback ⟨false⟩ ⟨some "tethys", 1, 1, 2, 3, 0, 0, 0⟩
      ⟨true, true, true⟩).2.head? = some (Request.setSphericalCoords
        { surfaceModel := .EARTH_WGS84
          latitudeDeg := 1
          longitudeDeg := 2
          elevation := -3
          headingDeg := 0 }) :=
  spawn_origin_request_fields ⟨false⟩ ⟨some "tethys", 1, 1, 2, 3, 0, 0, 0⟩
    ⟨true, true, true⟩ rfl rfl rfl

/-- C10: a spawn message without an ID field makes `SpawnCallback` return
early: no service request is issued and the plugin state, including
`hasWorldLatLon`, is unchanged. -/
theorem spawn_no_id_no_effect (st : PluginState) (m : LRAUVInit)
    (o : SpawnOracle) (h : m.id = none) :
    SpawnCallback st m o = (st, []) := by
  obtain ⟨mid, a1, a2, a3, a4, a5, a6, a7⟩ := m
  cases mid
  · rfl
  · exact absurd h (by simp)

/-- Witness for C10: a concrete ID-less spawn message. -/
theorem spawn_no_id_no_effect_witness :
    SpawnCallback ⟨false⟩ ⟨none, 1, 1, 2, 3, 0, 0, 0⟩ ⟨true, true, true⟩
      = (⟨false⟩, []) :=
  spawn_no_id_no_effect ⟨false⟩ ⟨none, 1, 1, 2, 3, 0, 0, 0⟩
    ⟨true, true, true⟩ rfl

/-- C1: for every acoustic message `m`, position `v` and timestamp `t`,
with `p = CommsPacket.make m v t`, decoding the wire form restores the
packet (`CommsPacket.make (p.ToInternalMsg) = p`, the overload on the
internal message) and converting back restores the original message
(`p.ToExternalMsg = m`). -/
theorem comms_packet_roundtrip (m : AcousticMsg) (v : Vec3) (t : Int) :
    CommsPacket.makeFromInternal ((CommsPacket.make m v t).ToInternalMsg)
        = CommsPacket.make m v t
    ∧ (CommsPacket.make m v t).ToExternalMsg = m :=
  ⟨rfl, rfl⟩

/-- C4: `TethysCommPlugin::CommandCallback` publishes on the rudder topic a
`Double` message whose data is the command's `rudderAngleAction_` unchanged,
and on the elevator topic a `Double` message whose data is the command's
`elevatorAngleAction_` unchanged. -/
theorem command_republishes_rudder_elevator (msg : LRAUVCommand) :
    (CommandCallback msg)[0]? = some (CmdPub.rudder msg.rudderAngleAction)
    ∧ (CommandCallback msg)[1]? =
        some (CmdPub.elevator msg.elevatorAngleAction) :=
  ⟨rfl, rfl⟩

/-- Positivity of the rational model of `M_PI`. -/
theorem M_PI_pos : (0 : ℚ) < M_PI := by norm_num [M_PI]

/-- C9: the thruster value `CommandCallback` publishes opposes the
commanded propeller speed: with `a = propOmegaAction_ / (60 * 2 * M_PI)`,
the published force is `-7.879 * 1000 * 0.0016 * a ^ 2` when `0 ≤ a` and
`+7.879 * 1000 * 0.0016 * a ^ 2` when `a < 0`; in particular a positive
commanded omega yields a non-positive published force. -/
theorem thruster_force_opposes_command (msg : LRAUVCommand) :
    (0 ≤ msg.propOmegaAction / (60 * 2 * M_PI) →
      (CommandCallback msg)[2]? = some (CmdPub.thruster
        (-7.879 * 1000 * 0.0016 * (msg.propOmegaAction / (60 * 2 * M_PI)) ^ 2)))
    ∧ (msg.propOmegaAction / (60 * 2 * M_PI) < 0 →
      (CommandCallback msg)[2]? = some (CmdPub.thruster
        (7.879 * 1000 * 0.0016 * (msg.propOmegaAction / (60 * 2 * M_PI)) ^ 2)))
    ∧ (0 < msg.propOmegaAction →
        ∀ f, (CommandCallback msg)[2]? = some (CmdPub.thruster f) → f ≤ 0) := by
  have hval : (CommandCallback msg)[2]? = some (CmdPub.thruster
      (if msg.propOmegaAction / (60 * 2 * M_PI) < 0
       then -7.879 * 1000 * 0.0016 * (msg.propOmegaAction / (60 * 2 * M_PI))
            * (msg.propOmegaAction / (60 * 2 * M_PI)) * (-1)
       else -7.879 * 1000 * 0.0016 * (msg.propOmegaAction / (60 * 2 * M_PI))
            * (msg.propOmegaAction / (60 * 2 * M_PI)))) := rfl
  refine ⟨?_, ?_, ?_⟩
  · intro h
    rw [hval, if_neg (not_lt.2 h)]
    exact congrArg (fun q => some (CmdPub.thruster q)) (by ring)
  · intro h
    rw [hval, if_pos h]
    exact congrArg (fun q => some (CmdPub.thruster q)) (by ring)
  · intro hpos f hf
    have hden : (0 : ℚ) < 60 * 2 * M_PI := by nlinarith [M_PI_pos]
    have ha : 0 < msg.propOmegaAction / (60 * 2 * M_PI) := div_pos hpos hden
    rw [hval, if_neg (not_lt.2 ha.le)] at hf
    simp only [Option.some.injEq, CmdPub.thruster.injEq] at hf
    rw [← hf]
    nlinarith [mul_self_nonneg (msg.propOmegaAction / (60 * 2 * M_PI))]

/-- Witness for C9 at concrete commands: one with a positive commanded
omega (so the quotient is nonnegative and the force non-positive) and one
with a negative commanded omega. -/
theorem thruster_force_opposes_command_witness :
    ((CommandCallback ⟨120 * M_PI, 0, 0, 0, 0, 0, 0, 0⟩)[2]?
        = some (CmdPub.thruster (-7.879 * 1000 * 0.0016 *
            ((120 * M_PI) / (60 * 2 * M_PI)) ^ 2)))
    ∧ ((-7.879 * 1000 * 0.0016 *
          ((120 * M_PI) / (60 * 2 * M_PI)) ^ 2 : ℚ) ≤ 0)
    ∧ ((CommandCallback ⟨-(120 * M_PI), 0, 0, 0, 0, 0, 0, 0⟩)[2]?
        = some (CmdPub.thruster (7.879 * 1000 * 0.0016 *
            ((-(120 * M_PI)) / (60 * 2 * M_PI)) ^ 2))) := by
  have hpi := M_PI_pos
  have hden : (0 : ℚ) < 60 * 2 * M_PI := by nlinarith
  have hpos1 : (0 : ℚ) < 120 * M_PI := by nlinarith
  have hneg2 : (-(120 * M_PI) : ℚ) < 0 := by nlinarith
  have app1 := thruster_force_opposes_command ⟨120 * M_PI, 0, 0, 0, 0, 0, 0, 0⟩
  have app2 := thruster_force_opposes_command
    ⟨-(120 * M_PI), 0, 0, 0, 0, 0, 0, 0⟩
  have h1 := app1.1 (le_of_lt (div_pos hpos1 hden))
  exact ⟨h1, app1.2.2 hpos1 _ h1,
    app2.2.1 (div_neg_of_neg_of_pos hneg2 hden)⟩

/-- C5: every invocation of `TethysCommPlugin::PostUpdate` publishes
exactly one `LRAUVState` message, with `depth_` the negation of the model's
world z position, `rph_` the Euler angles of the model's world orientation,
`speed_` the length of the base link's world linear velocity and
`propOmega_` the length of the propeller link's world angular velocity. -/
theorem post_update_publishes_state (vecLength : Vec3 → ℚ)
    (sphericalFromLocal : Vec3 → Vec3) (simTimeNanos : Nat)
    (ecm : TethysEcm) :
    (PostUpdate vecLength sphericalFromLocal simTimeNanos ecm).length = 1
    ∧ (PostUpdate vecLength sphericalFromLocal simTimeNanos ecm)[0]? = some
      { stampSec := (simTimeNanos : Int) / 1000000000
        stampNsec := toCInt (simTimeNanos : Int)
          - (simTimeNanos : Int) / 1000000000 * 1000000000
        rph := ecm.modelWorldPose.rotEuler
        depth := -ecm.modelWorldPose.pos.z
        speed := vecLength ecm.baseWorldLinVel
        latitudeDeg := (sphericalFromLocal ecm.modelWorldPose.pos).x
        longitudeDeg := (sphericalFromLocal ecm.modelWorldPose.pos).y
        propOmega := vecLength ecm.propWorldAngVel } :=
  ⟨rfl, rfl⟩

/-- C8: `FinLiftDragPlugin::PreUpdate` has an empty body: for every step
and every entity-component state it reads nothing, writes nothing and
publishes nothing — the state after equals the state before. -/
theorem fin_pre_update_no_effect (t : Nat) (ecm : TethysEcm) :
    FinPreUpdate t ecm = (ecm, []) :=
  rfl

/-- Helper: `List.lookup` on a distinct-key association list returns the
value stored with a member key. -/
theorem mapFind_of_mem (m : List (ℚ × ℚ)) (a v : ℚ)
    (hnodup : (m.map Prod.fst).Nodup) (hmem : (a, v) ∈ m) :
    mapFind m a = some v := by
  induction m with
  | nil => simp at hmem
  | cons hd tl ih =>
    obtain ⟨k, w⟩ := hd
    simp only [List.map_cons, List.nodup_cons] at hnodup
    rcases List.mem_cons.1 hmem with heq | htl
    · cases heq
      simp [mapFind, List.lookup]
    · have hne : a ≠ k := by
        rintro rfl
        exact hnodup.1 (List.mem_map_of_mem Prod.fst htl)
      have : (a == k) = false := beq_eq_false_iff_ne.2 hne
      simp only [mapFind, List.lookup, this]
      exact ih hnodup.2 htl

/-- C7: a query angle that is exactly one of the tabulated angles makes
`FinLiftDragPrivateData::interpolate` return the stored coefficient
verbatim, with no interpolation applied. -/
theorem interpolate_table_hit (m : List (ℚ × ℚ)) (a v : ℚ)
    (hnodup : (m.map Prod.fst).Nodup) (hmem : (a, v) ∈ m) :
    interpolate m a = some v := by
  have hmf : (a, v) ∈ m.filter (fun p => p.1 == a) :=
    List.mem_filter.2 ⟨hmem, by simp⟩
  have hcount : 0 < mapCount m a := by
    have := List.length_pos.2 (List.ne_nil_of_mem hmf)
    simpa [mapCount] using this
  rw [interpolate, if_pos hcount]
  exact mapFind_of_mem m a v hnodup hmem

/-- Witness for C7: the two-entry table mapping angles 0 and 1 to
coefficients 1 and 2, queried exactly at angle 1. -/
theorem interpolate_table_hit_witness :
    ((([((0 : ℚ), (1 : ℚ)), (1, 2)]).map Prod.fst).Nodup
      ∧ ((1 : ℚ), (2 : ℚ)) ∈ [((0 : ℚ), (1 : ℚ)), (1, 2)])
    ∧ interpolate [((0 : ℚ), (1 : ℚ)), (1, 2)] 1 = some 2 :=
  ⟨⟨by decide, by decide⟩,
   interpolate_table_hit [((0 : ℚ), (1 : ℚ)), (1, 2)] 1 2
     (by decide) (by decide)⟩

/-- C6 (refutation of totality): on the two-entry table mapping angles 0
and 2 to coefficients 1 and 5, `interpolate` produces no value at the
strictly-between query 1 nor at the past-the-last query 3 — on every
non-exact hit the source function reaches its closing brace without a
`return` statement. -/
theorem interpolate_no_value_off_hit :
    interpolate [((0 : ℚ), (1 : ℚ)), (2, 5)] 1 = none
    ∧ interpolate [((0 : ℚ), (1 : ℚ)), (2, 5)] 3 = none := by
  constructor <;> decide

end GzLrauv
